import Mathlib

/-!
Shallow embedding of the two scraper variants of this repository:
`src/Books/scraper.py` (class `BookScraper`) and `src/lama/lama_scraper.py`.

External effects are made explicit:
* the filesystem is a list of `(path, content)` pairs (`FS`);
* the HTTP transport is a function `String → Option α` — `some` models a
  2xx response with its payload, `none` models any transport failure
  (non-2xx status raised by `raise_for_status`, network error, malformed
  URL): Python raises in all those cases and the code catches broadly;
* every performed fetch is recorded in a log (a list of URLs), so that
  "performs exactly one network fetch" is a statement about the log;
* `hashlib.md5(...).hexdigest()` is an abstract parameter
  `md5hex : String → String` — the claims only use that it is a function
  (deterministic in the URL).
-/

namespace Scrap

/-- Filesystem model: the list of files present, each with its content.
Directories are not tracked (`mkdir` with `exist_ok` is idempotent and
carries no information the claims need). -/
def FS := List (String × String)

/-- Test whether a path exists in the filesystem (Python `filepath.exists()`
/ `os.path.exists`). -/
def fsHas (fs : FS) (p : String) : Bool :=
  fs.any (fun e => e.fst == p)

/-- Write a file (Python `open(filepath, 'wb')` followed by copying the
response body). -/
def fsWrite (fs : FS) (p c : String) : FS :=
  (p, c) :: fs

/-- Image transport: `some body` on a 2xx response, `none` on any failure. -/
def ImgNet := String → Option String

/-- Python `s.strip()`: drop whitespace from both ends.  (Defined over the
character list so that it evaluates by kernel reduction.) -/
def pyStrip (s : String) : String :=
  String.mk (((s.data.dropWhile Char.isWhitespace).reverse.dropWhile
    Char.isWhitespace).reverse)

namespace Books

/-- Python `s.rsplit('/', 1)[0]`: everything before the last `'/'`, or the
whole string when it contains no `'/'`. -/
def rsplitDirname (s : String) : String :=
  match s.data.reverse.dropWhile (fun c => c ≠ '/') with
  | [] => s
  | _ :: tl => String.mk tl.reverse

/-- Python `s.lstrip('/')`: drop all leading `'/'` characters. -/
def lstripSlashes (s : String) : String :=
  String.mk (s.data.dropWhile (fun c => c = '/'))

/-- Character sanitisation of `BookScraper.get_category_image_dir`:
`"".join(c if c.isalnum() or c in (' ','-','_') else '_' for c in name)`. -/
def safeCategoryName (name : String) : String :=
  String.mk (name.data.map
    (fun c => if c.isAlphanum ∨ c = ' ' ∨ c = '-' ∨ c = '_' then c else '_'))

/-- Target path of `BookScraper.download_image`: the category directory under
`images/` plus the filename `hashlib.md5(image_url).hexdigest() + '.jpg'`. -/
def imagePath (md5hex : String → String) (imageUrl category : String) : String :=
  "images/" ++ safeCategoryName category ++ "/" ++ (md5hex imageUrl ++ ".jpg")

/-- Embedding of `BookScraper.download_image` (src/Books/scraper.py:61-86).
Returns the local path (`''` on failure, as the broad `except` does), the
updated filesystem, and the list of image URLs actually fetched. -/
def downloadImage (md5hex : String → String) (net : ImgNet) (fs : FS)
    (imageUrl category : String) : String × FS × List String :=
  let filepath := imagePath md5hex imageUrl category
  if fsHas fs filepath then
    (filepath, fs, [])
  else
    match net imageUrl with
    | some body => (filepath, fsWrite fs filepath body, [imageUrl])
    | none => ("", fs, [imageUrl])

/-- An `<img>` element as the extractor sees it: `src` is `none` when the
attribute is absent (then `.get('src', '')` yields `''`). -/
structure ImgEl where
  src : Option String
deriving DecidableEq, Repr

/-- The `h3 a` element: `title` is `none` when the attribute is absent (then
`.get('title', '')` yields `''`). -/
structure AEl where
  title : Option String
deriving DecidableEq, Repr

/-- One `article.product_pod` node, holding exactly what the selectors of
`get_books_from_category` can reach.  A `none` component means the selector
matched nothing (`select_one` returned `None`), so the subsequent attribute
access raises.  `starRating` holds the element's class list
(`.get('class')`); the `.star-rating` selector guarantees the attribute. -/
structure BookNode where
  img : Option ImgEl
  h3a : Option AEl
  priceColor : Option String
  starRating : Option (List String)
  instock : Option String
deriving DecidableEq, Repr

/-- One row of the Books output. -/
structure BookData where
  title : String
  price : String
  rating : String
  availability : String
  image_path : String
  category : String
deriving DecidableEq, Repr

/-- Image URL built at src/Books/scraper.py:98:
`self.base_url + '/' + book.select_one('img').get('src', '').lstrip('/')`. -/
def imageUrlOf (baseUrl : String) (img : ImgEl) : String :=
  baseUrl ++ "/" ++ lstripSlashes (img.src.getD "")

/-- Processing of one book node (the body of the `try` at
src/Books/scraper.py:97-110).  The image URL is built and the download
performed before the remaining fields are read, so its filesystem and log
effects persist even when a later selector misses; any missing critical
selector makes the whole item yield no record (the `except` at line 111
logs and continues). -/
def processBook (md5hex : String → String) (net : ImgNet)
    (baseUrl category : String) (fs : FS) (node : BookNode) :
    FS × List String × Option BookData :=
  match node.img with
  | none => (fs, [], none)
  | some img =>
    let url := imageUrlOf baseUrl img
    let d := downloadImage md5hex net fs url category
    match node.h3a, node.priceColor, node.starRating, node.instock with
    | some a, some price, some classes, some avail =>
      match classes.get? 1 with
      | some rating =>
        (d.2.1, d.2.2, some
          { title := a.title.getD ""
            price := pyStrip price
            rating := rating
            availability := pyStrip avail
            image_path := d.1
            category := category })
      | none => (d.2.1, d.2.2, none)
    | _, _, _, _ => (d.2.1, d.2.2, none)

/-- The per-page loop `for book in soup.select('article.product_pod')`:
records of failed items are dropped, successful ones kept in order;
filesystem state and the image-fetch log thread through. -/
def processBooks (md5hex : String → String) (net : ImgNet)
    (baseUrl category : String) : FS → List BookNode → FS × List String × List BookData
  | fs, [] => (fs, [], [])
  | fs, n :: rest =>
    let x := processBook md5hex net baseUrl category fs n
    let y := processBooks md5hex net baseUrl category x.1 rest
    (y.1, x.2.1 ++ y.2.1,
      match x.2.2 with
      | some r => r :: y.2.2
      | none => y.2.2)

/-- A fetched and parsed category page: its item nodes and the `li.next a`
element, when present, with its `href` attribute (`none` inside means the
attribute is absent, so `.get('href')` returns `None` and the string
concatenation at line 118 raises `TypeError`). -/
structure Page where
  books : List BookNode
  next : Option (Option String)

/-- Page transport: `some` is a fetched and parsed page, `none` any
fetch/parse failure. -/
def PageNet := String → Option Page

/-- Next-page URL built at src/Books/scraper.py:118:
`category_url.rsplit('/', 1)[0] + '/' + next_page.get('href')`.  Note the
base is the current call's `category_url` argument, which in the recursion
is the previous page's URL. -/
def nextPageUrl (categoryUrl href : String) : String :=
  rsplitDirname categoryUrl ++ "/" ++ href

/-- Embedding of `BookScraper.get_books_from_category`
(src/Books/scraper.py:88-124).  The Python recursion is unbounded, driven by
the server's `next` links; `fuel` caps the recursion depth in the embedding
(fuel exhaustion returns nothing, modelling the cut-off of a
non-terminating chain — the source has no such guard).  Result: final
filesystem, log of page URLs fetched, log of image URLs fetched, records.
A failed page fetch (outer `except`) returns `[]` records for the call; a
next element without `href` raises inside the same `try`, so the records of
the current page are discarded while the download side effects persist. -/
def getBooksFromCategory (md5hex : String → String) (pageNet : PageNet)
    (net : ImgNet) (baseUrl : String) :
    Nat → FS → String → String → FS × List String × List String × List BookData
  | 0, fs, _, _ => (fs, [], [], [])
  | fuel + 1, fs, categoryUrl, category =>
    match pageNet categoryUrl with
    | none => (fs, [categoryUrl], [], [])
    | some page =>
      let x := processBooks md5hex net baseUrl category fs page.books
      match page.next with
      | none => (x.1, [categoryUrl], x.2.1, x.2.2)
      | some none => (x.1, [categoryUrl], x.2.1, [])
      | some (some href) =>
        let nurl := nextPageUrl categoryUrl href
        let y := getBooksFromCategory md5hex pageNet net baseUrl fuel x.1 nurl category
        (y.1, categoryUrl :: y.2.1, x.2.1 ++ y.2.2.1, x.2.2 ++ y.2.2.2)

/-- Modelled from the spec: next-page resolution that "rebuilds the URL
from the category root plus the link's href" — the category root's
directory plus the href, independent of the current page.  Stated for
comparison with `nextPageUrl`, which the code applies to the current call's
URL. -/
def resolveFromCategoryRoot (categoryRootUrl href : String) : String :=
  rsplitDirname categoryRootUrl ++ "/" ++ href

/-- Concrete three-page chain whose second next-href carries a directory
component, used to separate current-page resolution from category-root
resolution. -/
def chainPageNet : PageNet := fun u =>
  if u = "http://s/cat/index.html" then
    some { books := [], next := some (some "sub/p2.html") }
  else if u = "http://s/cat/sub/p2.html" then
    some { books := [], next := some (some "p3.html") }
  else if u = "http://s/cat/sub/p3.html" then
    some { books := [], next := none }
  else none

/-- Python `os.path.relpath(path)` restricted to what this scraper feeds it:
it raises `ValueError("no path specified")` on an empty path, and returns
the already-relative paths this scraper produces unchanged. -/
def relpath (p : String) : Except String String :=
  if p = "" then Except.error "no path specified" else Except.ok p

/-- The mutation loop of `save_to_csv` (src/Books/scraper.py:132-133):
replace each record's `image_path` by its relpath; the first empty path
raises, aborting before the DataFrame is built. -/
def mapRelpath : List BookData → Except String (List BookData)
  | [] => Except.ok []
  | b :: rest =>
    match relpath b.image_path with
    | Except.error e => Except.error e
    | Except.ok p =>
      match mapRelpath rest with
      | Except.error e => Except.error e
      | Except.ok rs => Except.ok ({ b with image_path := p } :: rs)

/-- Embedding of `BookScraper.save_to_csv` (src/Books/scraper.py:126-137).
`writeRows` is the external serialisation capability
(`pandas.DataFrame.to_csv`).  The second component is `Except.error` when
the relpath loop raises; the file is then not written (the filesystem is
returned unchanged). -/
def saveToCsv (writeRows : List BookData → String) (fs : FS)
    (data : List BookData) (filename : String) : FS × Except String Unit :=
  if data.isEmpty then (fs, Except.ok ())
  else
    match mapRelpath data with
    | Except.error e => (fs, Except.error e)
    | Except.ok data2 => (fsWrite fs filename (writeRows data2), Except.ok ())

end Books

namespace Lama

/-- Basename characters of a path: everything after the last `'/'`. -/
def basenameChars (p : String) : List Char :=
  ((p.data.reverse.takeWhile (fun c => c ≠ '/'))).reverse

/-- Python `os.path.splitext(p)[1]`: the extension starts at the last dot of
the basename, provided some character of the basename strictly before that
dot is not itself a dot (so `.bashrc` has no extension). -/
def splitextExt (p : String) : String :=
  let revb := (basenameChars p).reverse
  let revBody := revb.takeWhile (fun c => c ≠ '.')
  if revBody.length = revb.length then ""
  else
    let pre := (revb.drop (revBody.length + 1)).reverse
    if pre.any (fun c => c ≠ '.') then String.mk ('.' :: revBody.reverse) else ""

/-- Characters after the first `"://"` separator, `none` when there is
none. -/
def afterSchemeSep : List Char → Option (List Char)
  | [] => none
  | ':' :: '/' :: '/' :: rest => some rest
  | _ :: rest => afterSchemeSep rest

/-- Python `urllib.parse.urlparse(url).path` for the URLs this scraper
hands to `download_image` (they all start with `"https:"`): drop the
fragment (from the first `'#'`), then the query (from the first `'?'`),
then `scheme://netloc` when a `"://"` separator is present — the path then
starts at the first `'/'` after the netloc, or is empty. -/
def urlPath (url : String) : String :=
  let base := (url.data.takeWhile (fun c => c ≠ '#')).takeWhile (fun c => c ≠ '?')
  match afterSchemeSep base with
  | none => String.mk base
  | some rest => String.mk (rest.dropWhile (fun c => c ≠ '/'))

/-- Extension chosen by `download_image` (src/lama/lama_scraper.py:18-21):
the URL path's extension, defaulting to `.jpg` when empty. -/
def extOf (url : String) : String :=
  let e := splitextExt (urlPath url)
  if e = "" then ".jpg" else e

/-- Filename built at src/lama/lama_scraper.py:24:
`f"{product_handle}_{image_type}{ext}"`. -/
def filenameOf (handle imageType url : String) : String :=
  handle ++ "_" ++ imageType ++ extOf url

/-- Embedding of `download_image` (src/lama/lama_scraper.py:9-40).  Returns
the local path (`none` when the URL is absent/empty or the transport
fails — the broad `except` prints and returns `None`), the filesystem, and
the image URLs fetched. -/
def downloadImage (net : ImgNet) (fs : FS) (url : Option String)
    (folderPath handle imageType : String) : Option String × FS × List String :=
  match url with
  | none => (none, fs, [])
  | some u =>
    if u = "" then (none, fs, [])
    else
      let filepath := folderPath ++ "/" ++ filenameOf handle imageType u
      if fsHas fs filepath then (some filepath, fs, [])
      else
        match net u with
        | some body => (some filepath, fsWrite fs filepath body, [u])
        | none => (none, fs, [u])

/-- The `.grid-product__content` div of one product: text of the first
title-selector match, and the regular/sale price elements (`none` when the
selector matched nothing). -/
structure Content where
  titleEl : Option String
  regularPriceEl : Option String
  salePriceEl : Option String
deriving DecidableEq, Repr

/-- An image element of a product: `src` is `none` when
`'src' in img.attrs` is false. -/
structure LamaImg where
  src : Option String
deriving DecidableEq, Repr

/-- One `div.grid__item.grid-product` node.  `handle`/`productId` are the
`data-product-handle`/`data-product-id` attributes (`.get(..., '')` yields
`''` when absent); `content` is `none` when the content div selector
matches nothing (the loop then `continue`s). -/
structure Product where
  handle : Option String
  productId : Option String
  content : Option Content
  primaryImg : Option LamaImg
  secondaryImg : Option LamaImg
deriving DecidableEq, Repr

/-- One row of the lama output (the dict appended at
src/lama/lama_scraper.py:104-116). -/
structure LamaRecord where
  name : String
  product_id : String
  handle : String
  regular_price : Option String
  sale_price : Option String
  is_on_sale : Bool
  primary_image_url : Option String
  secondary_image_url : Option String
  primary_image_path : Option String
  secondary_image_path : Option String
  link : Option String
deriving DecidableEq, Repr

/-- Image URL built at src/lama/lama_scraper.py:98-99:
`f"https:{img['src']}"` when the element exists and has a `src` attribute,
else `None`. -/
def imageUrlOf (img : Option LamaImg) : Option String :=
  match img with
  | some el =>
    match el.src with
    | some s => some ("https:" ++ s)
    | none => none
  | none => none

/-- Processing of one product (the body of the loop at
src/lama/lama_scraper.py:74-122).  A missing content div skips the item
(`continue`); every selector miss after that point is tolerated with a
default or `None`.  `is_on_sale` is `bool(sale_price)` where `sale_price`
is the matched element or `None` — a bs4 `Tag` is always truthy, so this is
exactly "the sale-price selector matched". -/
def processProduct (net : ImgNet) (imagesFolder : String) (fs : FS)
    (p : Product) : FS × List String × Option LamaRecord :=
  let handle := p.handle.getD ""
  let pid := p.productId.getD ""
  match p.content with
  | none => (fs, [], none)
  | some content =>
    let name :=
      match content.titleEl with
      | some t => pyStrip t
      | none => "Name not found"
    let primaryUrl := imageUrlOf p.primaryImg
    let secondaryUrl := imageUrlOf p.secondaryImg
    let d1 := downloadImage net fs primaryUrl imagesFolder handle "primary"
    let d2 := downloadImage net d1.2.1 secondaryUrl imagesFolder handle "secondary"
    (d2.2.1, d1.2.2 ++ d2.2.2, some
      { name := name
        product_id := pid
        handle := handle
        regular_price := content.regularPriceEl.map pyStrip
        sale_price := content.salePriceEl.map pyStrip
        is_on_sale := content.salePriceEl.isSome
        primary_image_url := primaryUrl
        secondary_image_url := secondaryUrl
        primary_image_path := d1.1
        secondary_image_path := d2.1
        link := if handle = "" then none
                else some ("https://lamaretail.com/products/" ++ handle) })

/-- The product loop of `scrape_lama_retail`: skipped items contribute
nothing, the rest are appended in order. -/
def processProducts (net : ImgNet) (imagesFolder : String) :
    FS → List Product → FS × List String × List LamaRecord
  | fs, [] => (fs, [], [])
  | fs, p :: rest =>
    let x := processProduct net imagesFolder fs p
    let y := processProducts net imagesFolder x.1 rest
    (y.1, x.2.1 ++ y.2.1,
      match x.2.2 with
      | some r => r :: y.2.2
      | none => y.2.2)

/-- The fixed collection URL at src/lama/lama_scraper.py:43. -/
def collectionUrl : String := "https://lamaretail.com/collections/man-jackets-coats"

/-- Embedding of `scrape_lama_retail` (src/lama/lama_scraper.py:42-125).
`pageNet` fetches and parses the single collection page into its product
nodes (`none` on any transport failure, where the function returns `[]`);
`imagesFolder` stands for `os.path.join(os.path.dirname(__file__),
'images')`. -/
def scrapeLamaRetail (pageNet : String → Option (List Product)) (net : ImgNet)
    (imagesFolder : String) (fs : FS) : FS × List String × List LamaRecord :=
  match pageNet collectionUrl with
  | none => (fs, [], [])
  | some products => processProducts net imagesFolder fs products

/-- Concrete content div used as a witness input. -/
def sampleContent : Content :=
  { titleEl := some "Coat", regularPriceEl := some "100",
    salePriceEl := some "80" }

/-- Concrete one-product page used as a witness input. -/
def sampleProduct : Product :=
  { handle := some "coat", productId := some "1",
    content := some sampleContent,
    primaryImg := none, secondaryImg := none }

/-- Concrete content div with no price selector matches, used as a witness
input. -/
def sampleContentNoPrices : Content :=
  { titleEl := some "Coat", regularPriceEl := none, salePriceEl := none }

/-- Concrete product whose non-critical fields (prices, secondary image)
all miss, used as a witness input. -/
def sampleProductNoPrices : Product :=
  { handle := some "coat2", productId := some "2",
    content := some sampleContentNoPrices,
    primaryImg := none, secondaryImg := none }

/-- The record `sampleProduct` yields. -/
def sampleRecord : LamaRecord :=
  { name := "Coat", product_id := "1", handle := "coat",
    regular_price := some "100", sale_price := some "80",
    is_on_sale := true,
    primary_image_url := none, secondary_image_url := none,
    primary_image_path := none, secondary_image_path := none,
    link := some "https://lamaretail.com/products/coat" }

end Lama

end Scrap

namespace Scrap

theorem fsHas_fsWrite_self (fs : FS) (p c : String) :
    fsHas (fsWrite fs p c) p = true := by
  simp [fsHas, fsWrite]

theorem Books.mapRelpath_error_of_mem (data : List Books.BookData)
    (h : ∃ b ∈ data, b.image_path = "") :
    Books.mapRelpath data = Except.error "no path specified" := by
  induction data with
  | nil => simp at h
  | cons b rest ih =>
    by_cases hb : b.image_path = ""
    · simp [Books.mapRelpath, Books.relpath, hb]
    · obtain ⟨x, hx, hxe⟩ := h
      rcases List.mem_cons.mp hx with rfl | hx'
      · exact absurd hxe hb
      · have := ih ⟨x, hx', hxe⟩
        simp [Books.mapRelpath, Books.relpath, hb, this]

theorem Lama.processProduct_sale_iff (net : ImgNet) (folder : String) (fs : FS)
    (p : Lama.Product) (r : Lama.LamaRecord)
    (h : (Lama.processProduct net folder fs p).2.2 = some r) :
    r.is_on_sale = true ↔ r.sale_price ≠ none := by
  unfold Lama.processProduct at h
  cases hc : p.content with
  | none => rw [hc] at h; simp at h
  | some c =>
    rw [hc] at h
    simp only [Option.some.injEq] at h
    subst h
    cases c.salePriceEl <;> simp

theorem Lama.processProducts_sale_iff (net : ImgNet) (folder : String)
    (ps : List Lama.Product) (fs : FS) (r : Lama.LamaRecord)
    (h : r ∈ (Lama.processProducts net folder fs ps).2.2) :
    r.is_on_sale = true ↔ r.sale_price ≠ none := by
  induction ps generalizing fs with
  | nil => simp [Lama.processProducts] at h
  | cons p rest ih =>
    cases hx : (Lama.processProduct net folder fs p).2.2 with
    | none =>
      simp only [Lama.processProducts, hx] at h
      exact ih _ h
    | some r0 =>
      simp only [Lama.processProducts, hx] at h
      rcases List.mem_cons.mp h with rfl | h'
      · exact Lama.processProduct_sale_iff net folder fs p r hx
      · exact ih _ h'

end Scrap

open Scrap in
/-- C1: calling the image-download operation twice with the same source URL
and namespace (category name for Books, folder+handle+role for lama)
performs exactly one network fetch; the second call finds the target path
present, fetches nothing, and returns the same local path as the first
call.  Stated for a fresh cache entry whose first fetch succeeds, for both
variants. -/
theorem cache_fetch_once_idempotent
    (md5hex : String → String) (net : ImgNet) (fs : FS) (url cat body : String)
    (habs : fsHas fs (Books.imagePath md5hex url cat) = false)
    (hnet : net url = some body)
    (lnet : ImgNet) (lfs : FS) (lurl folder handle role lbody : String)
    (hlne : lurl ≠ "")
    (hlabs : fsHas lfs (folder ++ "/" ++ Lama.filenameOf handle role lurl) = false)
    (hlnet : lnet lurl = some lbody) :
    (let d1 := Books.downloadImage md5hex net fs url cat
     let d2 := Books.downloadImage md5hex net d1.2.1 url cat
     d1.2.2 = [url] ∧ d2.2.2 = [] ∧ d2.1 = d1.1 ∧
       d1.1 = Books.imagePath md5hex url cat) ∧
    (let e1 := Lama.downloadImage lnet lfs (some lurl) folder handle role
     let e2 := Lama.downloadImage lnet e1.2.1 (some lurl) folder handle role
     e1.2.2 = [lurl] ∧ e2.2.2 = [] ∧ e2.1 = e1.1 ∧
       e1.1 = some (folder ++ "/" ++ Lama.filenameOf handle role lurl)) := by
  constructor
  · simp [Books.downloadImage, habs, hnet, fsHas_fsWrite_self]
  · simp [Lama.downloadImage, hlne, hlabs, hlnet, fsHas_fsWrite_self]

/-- Witness for `cache_fetch_once_idempotent` at concrete inputs. -/
theorem cache_fetch_once_idempotent_witness :
    (let d1 := Scrap.Books.downloadImage (fun _ => "h") (fun _ => some "B") []
        "https://books.toscrape.com/a.png" "Travel"
     let d2 := Scrap.Books.downloadImage (fun _ => "h") (fun _ => some "B")
        d1.2.1 "https://books.toscrape.com/a.png" "Travel"
     d1.2.2 = ["https://books.toscrape.com/a.png"] ∧ d2.2.2 = [] ∧
       d2.1 = d1.1 ∧
       d1.1 = Scrap.Books.imagePath (fun _ => "h")
         "https://books.toscrape.com/a.png" "Travel") ∧
    (let e1 := Scrap.Lama.downloadImage (fun _ => some "B") []
        (some "https://cdn.example.com/i.png") "images" "coat" "primary"
     let e2 := Scrap.Lama.downloadImage (fun _ => some "B") e1.2.1
        (some "https://cdn.example.com/i.png") "images" "coat" "primary"
     e1.2.2 = ["https://cdn.example.com/i.png"] ∧ e2.2.2 = [] ∧
       e2.1 = e1.1 ∧
       e1.1 = some ("images" ++ "/" ++ Scrap.Lama.filenameOf "coat" "primary"
         "https://cdn.example.com/i.png")) :=
  cache_fetch_once_idempotent (fun _ => "h") (fun _ => some "B") []
    "https://books.toscrape.com/a.png" "Travel" "B" (by decide) rfl
    (fun _ => some "B") [] "https://cdn.example.com/i.png" "images" "coat"
    "primary" "B" (by decide) (by decide) rfl

open Scrap in
/-- C9: if any record passed to the Books `save_to_csv` has an empty
`image_path` (the value `download_image` returns on failure) and the list is
non-empty, the relpath loop raises `ValueError` before the CSV is written:
the call returns the error and leaves the filesystem unchanged, so no
records are exported. -/
theorem save_to_csv_raises_on_empty_path
    (writeRows : List Books.BookData → String) (fs : FS)
    (data : List Books.BookData) (filename : String)
    (hne : data ≠ [])
    (h : ∃ b ∈ data, b.image_path = "") :
    Books.saveToCsv writeRows fs data filename =
      (fs, Except.error "no path specified") := by
  have hie : data.isEmpty = false := by
    cases data with
    | nil => exact absurd rfl hne
    | cons b rest => rfl
  unfold Books.saveToCsv
  rw [hie, Books.mapRelpath_error_of_mem data h]
  simp

/-- Witness for `save_to_csv_raises_on_empty_path` at a concrete record
list containing a failed download. -/
theorem save_to_csv_raises_on_empty_path_witness :
    Scrap.Books.saveToCsv (fun _ => "csv") []
      [{ title := "t", price := "p", rating := "Three", availability := "y",
         image_path := "", category := "c" }] "books.csv" =
      ([], Except.error "no path specified") :=
  save_to_csv_raises_on_empty_path (fun _ => "csv") []
    [{ title := "t", price := "p", rating := "Three", availability := "y",
       image_path := "", category := "c" }] "books.csv"
    (by decide)
    ⟨_, List.mem_singleton_self _, rfl⟩

open Scrap in
/-- C10: every record produced by the lama scrape has `is_on_sale` true
exactly when its `sale_price` field is non-null, i.e. when the sale-price
selector matched an element. -/
theorem is_on_sale_iff_sale_price
    (pageNet : String → Option (List Lama.Product)) (net : ImgNet)
    (folder : String) (fs : FS) (r : Lama.LamaRecord)
    (h : r ∈ (Lama.scrapeLamaRetail pageNet net folder fs).2.2) :
    r.is_on_sale = true ↔ r.sale_price ≠ none := by
  unfold Lama.scrapeLamaRetail at h
  cases hp : pageNet Lama.collectionUrl with
  | none => rw [hp] at h; simp at h
  | some ps =>
    rw [hp] at h
    exact Lama.processProducts_sale_iff net folder ps fs r h

/-- Witness for `is_on_sale_iff_sale_price` on a concrete one-product
collection page whose sale-price selector matches. -/
theorem is_on_sale_iff_sale_price_witness :
    Scrap.Lama.sampleRecord.is_on_sale = true ↔
      Scrap.Lama.sampleRecord.sale_price ≠ none :=
  is_on_sale_iff_sale_price (fun _ => some [Scrap.Lama.sampleProduct])
    (fun _ => none) "images" [] Scrap.Lama.sampleRecord (by decide)

open Scrap in
/-- C3: on a page whose item nodes are `n1, n2, n3`, if extracting `n2`
fails (Books: a critical selector misses and the per-item `try/except`
catches; lama: the content div is missing and the loop `continue`s) while
`n1` and `n3` yield records, the page's result is exactly `[r1, r3]`, in
order. -/
theorem page_skips_failing_item
    (md5hex : String → String) (net : ImgNet) (baseUrl cat : String)
    (fs : FS) (n1 n2 n3 : Books.BookNode) (r1 r3 : Books.BookData)
    (h1 : (Books.processBook md5hex net baseUrl cat fs n1).2.2 = some r1)
    (h2 : (Books.processBook md5hex net baseUrl cat
      (Books.processBook md5hex net baseUrl cat fs n1).1 n2).2.2 = none)
    (h3 : (Books.processBook md5hex net baseUrl cat
      (Books.processBook md5hex net baseUrl cat
        (Books.processBook md5hex net baseUrl cat fs n1).1 n2).1 n3).2.2 =
      some r3)
    (lnet : ImgNet) (folder : String) (lfs : FS) (p1 p2 p3 : Lama.Product)
    (s1 s3 : Lama.LamaRecord)
    (g1 : (Lama.processProduct lnet folder lfs p1).2.2 = some s1)
    (g2 : p2.content = none)
    (g3 : (Lama.processProduct lnet folder
      (Lama.processProduct lnet folder lfs p1).1 p3).2.2 = some s3) :
    (Books.processBooks md5hex net baseUrl cat fs [n1, n2, n3]).2.2 =
      [r1, r3] ∧
    (Lama.processProducts lnet folder lfs [p1, p2, p3]).2.2 = [s1, s3] := by
  constructor
  · simp only [Books.processBooks, h1, h2, h3]
  · have hp2 : Lama.processProduct lnet folder
        (Lama.processProduct lnet folder lfs p1).1 p2 =
        ((Lama.processProduct lnet folder lfs p1).1, [], none) := by
      unfold Lama.processProduct
      rw [g2]
    simp only [Lama.processProducts, g1, hp2, g3]

/-- Witness for `page_skips_failing_item`: a concrete three-item Books page
whose middle node has no `.price_color` match, and a concrete three-product
lama page whose middle product has no content div. -/
theorem page_skips_failing_item_witness :
    (Scrap.Books.processBooks (fun _ => "h") (fun _ => some "B") "b" "c" []
      [{ img := some ⟨some "/a.png"⟩, h3a := some ⟨some "t1"⟩,
         priceColor := some " p1 ", starRating := some ["star-rating", "Three"],
         instock := some " In stock " },
       { img := some ⟨some "/b.png"⟩, h3a := some ⟨some "t2"⟩,
         priceColor := none, starRating := some ["star-rating", "One"],
         instock := some "In stock" },
       { img := some ⟨some "/c.png"⟩, h3a := some ⟨some "t3"⟩,
         priceColor := some "p3", starRating := some ["star-rating", "Five"],
         instock := some "In stock" }]).2.2 =
      [{ title := "t1", price := "p1", rating := "Three",
         availability := "In stock", image_path := "images/c/h.jpg",
         category := "c" },
       { title := "t3", price := "p3", rating := "Five",
         availability := "In stock", image_path := "images/c/h.jpg",
         category := "c" }] ∧
    (Scrap.Lama.processProducts (fun _ => none) "images" []
      [Scrap.Lama.sampleProduct,
       { handle := some "x", productId := some "2", content := none,
         primaryImg := none, secondaryImg := none },
       Scrap.Lama.sampleProduct]).2.2 =
      [Scrap.Lama.sampleRecord, Scrap.Lama.sampleRecord] :=
  page_skips_failing_item (fun _ => "h") (fun _ => some "B") "b" "c" []
    { img := some ⟨some "/a.png"⟩, h3a := some ⟨some "t1"⟩,
      priceColor := some " p1 ", starRating := some ["star-rating", "Three"],
      instock := some " In stock " }
    { img := some ⟨some "/b.png"⟩, h3a := some ⟨some "t2"⟩,
      priceColor := none, starRating := some ["star-rating", "One"],
      instock := some "In stock" }
    { img := some ⟨some "/c.png"⟩, h3a := some ⟨some "t3"⟩,
      priceColor := some "p3", starRating := some ["star-rating", "Five"],
      instock := some "In stock" }
    { title := "t1", price := "p1", rating := "Three",
      availability := "In stock", image_path := "images/c/h.jpg",
      category := "c" }
    { title := "t3", price := "p3", rating := "Five",
      availability := "In stock", image_path := "images/c/h.jpg",
      category := "c" }
    (by decide) (by decide) (by decide)
    (fun _ => none) "images" [] Scrap.Lama.sampleProduct
    { handle := some "x", productId := some "2", content := none,
      primaryImg := none, secondaryImg := none }
    Scrap.Lama.sampleProduct Scrap.Lama.sampleRecord Scrap.Lama.sampleRecord
    (by decide) (by decide) (by decide)

open Scrap in
/-- Counterexample to C4: in the Books variant a node whose `.price_color`
selector matches nothing yields NO record at all (the attribute access
raises and the item is skipped), instead of a record with a null price. -/
theorem books_price_miss_drops_record_cex :
    (Books.processBook (fun _ => "h") (fun _ => some "B")
      "https://books.toscrape.com" "Travel" []
      { img := some ⟨some "/a.png"⟩, h3a := some ⟨some "t"⟩,
        priceColor := none, starRating := some ["star-rating", "Three"],
        instock := some "In stock" }).2.2 = none := by
  decide

open Scrap in
/-- C4 as amended: in the lama variant every product with a content div
yields a record, with `regular_price`/`sale_price` null when their
selectors miss and the secondary image fields null when the secondary image
is absent; in the Books variant the price is critical — a node whose
`.price_color` selector misses yields no record (as do missing rating and
availability). -/
theorem noncritical_field_defaults
    (net : ImgNet) (folder : String) (fs : FS) (p : Lama.Product)
    (c : Lama.Content) (hc : p.content = some c) :
    (∃ r, (Lama.processProduct net folder fs p).2.2 = some r ∧
      r.regular_price = c.regularPriceEl.map pyStrip ∧
      r.sale_price = c.salePriceEl.map pyStrip ∧
      r.secondary_image_url = Lama.imageUrlOf p.secondaryImg ∧
      (p.secondaryImg = none →
        r.secondary_image_url = none ∧ r.secondary_image_path = none)) ∧
    ∀ (md5hex : String → String) (bnet : ImgNet) (baseUrl cat : String)
      (bfs : FS) (img : Books.ImgEl) (a : Books.AEl)
      (rat : Option (List String)) (av : Option String),
      (Books.processBook md5hex bnet baseUrl cat bfs
        { img := some img, h3a := some a, priceColor := none,
          starRating := rat, instock := av }).2.2 = none := by
  constructor
  · unfold Lama.processProduct
    rw [hc]
    refine ⟨_, rfl, rfl, rfl, rfl, ?_⟩
    intro h
    rw [h]
    exact ⟨rfl, rfl⟩
  · intro md5hex bnet baseUrl cat bfs img a rat av
    unfold Books.processBook
    cases rat <;> cases av <;> rfl

/-- Witness for `noncritical_field_defaults` at a concrete product whose
price selectors and secondary image all miss. -/
theorem noncritical_field_defaults_witness :
    (∃ r, (Scrap.Lama.processProduct (fun _ => none) "images" []
        Scrap.Lama.sampleProductNoPrices).2.2 = some r ∧
      r.regular_price =
        Scrap.Lama.sampleContentNoPrices.regularPriceEl.map Scrap.pyStrip ∧
      r.sale_price =
        Scrap.Lama.sampleContentNoPrices.salePriceEl.map Scrap.pyStrip ∧
      r.secondary_image_url =
        Scrap.Lama.imageUrlOf Scrap.Lama.sampleProductNoPrices.secondaryImg ∧
      (Scrap.Lama.sampleProductNoPrices.secondaryImg = none →
        r.secondary_image_url = none ∧ r.secondary_image_path = none)) ∧
    ∀ (md5hex : String → String) (bnet : Scrap.ImgNet) (baseUrl cat : String)
      (bfs : Scrap.FS) (img : Scrap.Books.ImgEl) (a : Scrap.Books.AEl)
      (rat : Option (List String)) (av : Option String),
      (Scrap.Books.processBook md5hex bnet baseUrl cat bfs
        { img := some img, h3a := some a, priceColor := none,
          starRating := rat, instock := av }).2.2 = none :=
  noncritical_field_defaults (fun _ => none) "images" []
    Scrap.Lama.sampleProductNoPrices Scrap.Lama.sampleContentNoPrices rfl

namespace Scrap

theorem Books.crawl_step_last (md5hex : String → String) (pageNet : Books.PageNet)
    (net : ImgNet) (baseUrl : String) (fuel : Nat) (fs : FS) (u cat : String)
    (page : Books.Page) (h : pageNet u = some page) (hn : page.next = none) :
    Books.getBooksFromCategory md5hex pageNet net baseUrl (fuel + 1) fs u cat =
      ((Books.processBooks md5hex net baseUrl cat fs page.books).1, [u],
       (Books.processBooks md5hex net baseUrl cat fs page.books).2.1,
       (Books.processBooks md5hex net baseUrl cat fs page.books).2.2) := by
  simp only [Books.getBooksFromCategory, h, hn]

theorem Books.crawl_step_next (md5hex : String → String) (pageNet : Books.PageNet)
    (net : ImgNet) (baseUrl : String) (fuel : Nat) (fs : FS) (u cat href : String)
    (page : Books.Page) (h : pageNet u = some page)
    (hn : page.next = some (some href)) :
    Books.getBooksFromCategory md5hex pageNet net baseUrl (fuel + 1) fs u cat =
      ((Books.getBooksFromCategory md5hex pageNet net baseUrl fuel
          (Books.processBooks md5hex net baseUrl cat fs page.books).1
          (Books.nextPageUrl u href) cat).1,
       u :: (Books.getBooksFromCategory md5hex pageNet net baseUrl fuel
          (Books.processBooks md5hex net baseUrl cat fs page.books).1
          (Books.nextPageUrl u href) cat).2.1,
       (Books.processBooks md5hex net baseUrl cat fs page.books).2.1 ++
        (Books.getBooksFromCategory md5hex pageNet net baseUrl fuel
          (Books.processBooks md5hex net baseUrl cat fs page.books).1
          (Books.nextPageUrl u href) cat).2.2.1,
       (Books.processBooks md5hex net baseUrl cat fs page.books).2.2 ++
        (Books.getBooksFromCategory md5hex pageNet net baseUrl fuel
          (Books.processBooks md5hex net baseUrl cat fs page.books).1
          (Books.nextPageUrl u href) cat).2.2.2) := by
  simp only [Books.getBooksFromCategory, h, hn]

theorem Books.crawl_log_head (md5hex : String → String) (pageNet : Books.PageNet)
    (net : ImgNet) (baseUrl : String) (fuel : Nat) (fs : FS) (u cat : String) :
    (Books.getBooksFromCategory md5hex pageNet net baseUrl (fuel + 1) fs
      u cat).2.1.head? = some u := by
  cases hp : pageNet u with
  | none => simp [Books.getBooksFromCategory, hp]
  | some page =>
    cases hn : page.next with
    | none => simp [Books.getBooksFromCategory, hp, hn]
    | some oh =>
      cases oh with
      | none => simp [Books.getBooksFromCategory, hp, hn]
      | some href => simp [Books.getBooksFromCategory, hp, hn]

end Scrap

open Scrap in
/-- C2: for a chain `P1 → P2 → P3 → (no next)` the category crawl
terminates (the result is the same for every recursion budget of at least
three pages), returns the records of P1, P2, P3 concatenated in order (each
page processed in the filesystem state its predecessors left), and its page
fetches are exactly `[P1's URL, P2's URL, P3's URL]` — no URL beyond P3 is
fetched. -/
theorem pagination_three_pages_concat (md5hex : String → String)
    (pageNet : Books.PageNet) (net : ImgNet) (baseUrl cat : String) (fs : FS)
    (u1 h2 h3 : String) (P1 P2 P3 : Books.Page) (fuel : Nat)
    (hp1 : pageNet u1 = some P1) (hn1 : P1.next = some (some h2))
    (hp2 : pageNet (Books.nextPageUrl u1 h2) = some P2)
    (hn2 : P2.next = some (some h3))
    (hp3 : pageNet (Books.nextPageUrl (Books.nextPageUrl u1 h2) h3) = some P3)
    (hn3 : P3.next = none)
    (hfuel : 3 ≤ fuel) :
    Books.getBooksFromCategory md5hex pageNet net baseUrl fuel fs u1 cat =
      (let x1 := Books.processBooks md5hex net baseUrl cat fs P1.books
       let x2 := Books.processBooks md5hex net baseUrl cat x1.1 P2.books
       let x3 := Books.processBooks md5hex net baseUrl cat x2.1 P3.books
       (x3.1,
        [u1, Books.nextPageUrl u1 h2,
         Books.nextPageUrl (Books.nextPageUrl u1 h2) h3],
        x1.2.1 ++ (x2.2.1 ++ x3.2.1),
        x1.2.2 ++ (x2.2.2 ++ x3.2.2))) := by
  obtain ⟨k, rfl⟩ : ∃ k, fuel = k + 1 + 1 + 1 := ⟨fuel - 3, by omega⟩
  rw [Books.crawl_step_next md5hex pageNet net baseUrl _ fs u1 cat h2 P1 hp1 hn1]
  rw [Books.crawl_step_next md5hex pageNet net baseUrl _ _ _ cat h3 P2 hp2 hn2]
  rw [Books.crawl_step_last md5hex pageNet net baseUrl _ _ _ cat P3 hp3 hn3]

/-- Witness for `pagination_three_pages_concat` on the concrete three-page
chain `chainPageNet` with recursion budget 5. -/
theorem pagination_three_pages_concat_witness :
    Scrap.Books.getBooksFromCategory (fun _ => "h") Scrap.Books.chainPageNet
      (fun _ => none) "https://books.toscrape.com" 5 []
      "http://s/cat/index.html" "c" =
      (let x1 := Scrap.Books.processBooks (fun _ => "h") (fun _ => none)
        "https://books.toscrape.com" "c" []
        (Scrap.Books.Page.books { books := [], next := some (some "sub/p2.html") })
       let x2 := Scrap.Books.processBooks (fun _ => "h") (fun _ => none)
        "https://books.toscrape.com" "c" x1.1
        (Scrap.Books.Page.books { books := [], next := some (some "p3.html") })
       let x3 := Scrap.Books.processBooks (fun _ => "h") (fun _ => none)
        "https://books.toscrape.com" "c" x2.1
        (Scrap.Books.Page.books { books := [], next := none })
       (x3.1,
        ["http://s/cat/index.html",
         Scrap.Books.nextPageUrl "http://s/cat/index.html" "sub/p2.html",
         Scrap.Books.nextPageUrl
           (Scrap.Books.nextPageUrl "http://s/cat/index.html" "sub/p2.html")
           "p3.html"],
        x1.2.1 ++ (x2.2.1 ++ x3.2.1),
        x1.2.2 ++ (x2.2.2 ++ x3.2.2))) :=
  pagination_three_pages_concat (fun _ => "h") Scrap.Books.chainPageNet
    (fun _ => none) "https://books.toscrape.com" "c" []
    "http://s/cat/index.html" "sub/p2.html" "p3.html"
    { books := [], next := some (some "sub/p2.html") }
    { books := [], next := some (some "p3.html") }
    { books := [], next := none } 5
    rfl rfl rfl rfl rfl rfl (by omega)

open Scrap in
/-- Counterexample to C5: on the concrete chain `chainPageNet`, whose
second page's next href is `"p3.html"`, the crawler fetches
`http://s/cat/sub/p3.html` (the href resolved against the current page's
directory) and never fetches `http://s/cat/p3.html`, the URL the
category-root resolution of the spec would produce. -/
theorem next_url_not_category_root_cex :
    (Books.getBooksFromCategory (fun _ => "h") Books.chainPageNet
      (fun _ => none) "https://books.toscrape.com" 5 []
      "http://s/cat/index.html" "c").2.1 =
      ["http://s/cat/index.html", "http://s/cat/sub/p2.html",
       "http://s/cat/sub/p3.html"] ∧
    Books.resolveFromCategoryRoot "http://s/cat/index.html" "p3.html" =
      "http://s/cat/p3.html" ∧
    "http://s/cat/p3.html" ∉
      (Books.getBooksFromCategory (fun _ => "h") Books.chainPageNet
        (fun _ => none) "https://books.toscrape.com" 5 []
        "http://s/cat/index.html" "c").2.1 := by
  refine ⟨by decide, by decide, by decide⟩

open Scrap in
/-- C5 as amended: whenever a next-page link with an href is present, the
crawler's next page fetch is the href appended to the directory of the
current call's URL (everything before its last slash) — relative resolution
against the current page, which coincides with the category root only on
the first page or when every href in the chain is a bare filename. -/
theorem next_url_from_current_page (md5hex : String → String)
    (pageNet : Books.PageNet) (net : ImgNet) (baseUrl cat : String) (fs : FS)
    (u href : String) (page : Books.Page) (fuel : Nat)
    (h : pageNet u = some page) (hn : page.next = some (some href))
    (hf : 2 ≤ fuel) :
    ∃ rest, (Books.getBooksFromCategory md5hex pageNet net baseUrl fuel fs
      u cat).2.1 = u :: Books.nextPageUrl u href :: rest := by
  obtain ⟨k, rfl⟩ : ∃ k, fuel = k + 1 + 1 := ⟨fuel - 2, by omega⟩
  rw [Books.crawl_step_next md5hex pageNet net baseUrl _ fs u cat href page h hn]
  have hh := Books.crawl_log_head md5hex pageNet net baseUrl k
    (Books.processBooks md5hex net baseUrl cat fs page.books).1
    (Books.nextPageUrl u href) cat
  cases hl : (Books.getBooksFromCategory md5hex pageNet net baseUrl (k + 1)
      (Books.processBooks md5hex net baseUrl cat fs page.books).1
      (Books.nextPageUrl u href) cat).2.1 with
  | nil => rw [hl] at hh; simp at hh
  | cons a t =>
    rw [hl] at hh
    simp only [List.head?_cons, Option.some.injEq] at hh
    subst hh
    exact ⟨t, by simp [hl]⟩

/-- Witness for `next_url_from_current_page` on the concrete chain
`chainPageNet`. -/
theorem next_url_from_current_page_witness :
    ∃ rest, (Scrap.Books.getBooksFromCategory (fun _ => "h")
      Scrap.Books.chainPageNet (fun _ => none) "https://books.toscrape.com" 5
      [] "http://s/cat/index.html" "c").2.1 =
      "http://s/cat/index.html" ::
        Scrap.Books.nextPageUrl "http://s/cat/index.html" "sub/p2.html" ::
        rest :=
  next_url_from_current_page (fun _ => "h") Scrap.Books.chainPageNet
    (fun _ => none) "https://books.toscrape.com" "c" []
    "http://s/cat/index.html" "sub/p2.html"
    { books := [], next := some (some "sub/p2.html") } 5 rfl rfl (by omega)

namespace Scrap

theorem dropWhile_slash_no_lead (l : List Char) (h : l.head? ≠ some '/') :
    l.dropWhile (fun c => c = '/') = l := by
  cases l with
  | nil => rfl
  | cons c cs =>
    simp only [List.head?_cons, ne_eq, Option.some.injEq] at h
    simp [List.dropWhile_cons, h]

theorem Books.lstripSlashes_one (r : String) (h : r.data.head? ≠ some '/') :
    Books.lstripSlashes ("/" ++ r) = r := by
  unfold Books.lstripSlashes
  rw [String.data_append]
  show String.mk (List.dropWhile _ ('/' :: r.data)) = r
  rw [List.dropWhile_cons]
  simp only [decide_True, if_true]
  rw [dropWhile_slash_no_lead r.data h]

theorem Books.lstripSlashes_two (r : String) (h : r.data.head? ≠ some '/') :
    Books.lstripSlashes ("//" ++ r) = r := by
  unfold Books.lstripSlashes
  rw [String.data_append]
  show String.mk (List.dropWhile _ ('/' :: '/' :: r.data)) = r
  rw [List.dropWhile_cons]
  simp only [decide_True, if_true]
  rw [List.dropWhile_cons]
  simp only [decide_True, if_true]
  rw [dropWhile_slash_no_lead r.data h]

theorem https_append_protocol (r : String) :
    "https:" ++ ("//" ++ r) = "https://" ++ r := by
  apply String.ext
  rw [String.data_append, String.data_append, String.data_append]
  rfl

end Scrap

open Scrap in
/-- Counterexample to C6: for the protocol-relative image src
`//cdn.example.com/img.jpg` the Books variant strips every leading slash
and glues the remainder onto its base origin, so the URL handed to the
image cache (the single entry of the fetch log) is
`https://books.toscrape.com/cdn.example.com/img.jpg`, not
`https://cdn.example.com/img.jpg`. -/
theorem books_protocol_relative_cex :
    (Books.processBook (fun _ => "h") (fun _ => some "B")
      "https://books.toscrape.com" "Travel" []
      { img := some ⟨some "//cdn.example.com/img.jpg"⟩, h3a := some ⟨some "t"⟩,
        priceColor := some "p", starRating := some ["star-rating", "Three"],
        instock := some "y" }).2.1 =
      ["https://books.toscrape.com/cdn.example.com/img.jpg"] ∧
    "https://books.toscrape.com/cdn.example.com/img.jpg" ≠
      "https://cdn.example.com/img.jpg" := by
  exact ⟨by decide, by decide⟩

open Scrap in
/-- C6 as amended: the lama variant prepends `https:` to the extracted src,
so protocol-relative `//host/path` becomes `https://host/path` but a
site-relative `/path` becomes the malformed `https:/path`; the Books
variant strips all leading slashes from the src and appends the remainder
to its base origin, so site-relative paths resolve against the base origin
while protocol-relative URLs collapse into a path under the base origin. -/
theorem image_url_resolution_amended (r : String)
    (h : r.data.head? ≠ some '/') :
    Lama.imageUrlOf (some ⟨some ("//" ++ r)⟩) = some ("https://" ++ r) ∧
    Lama.imageUrlOf (some ⟨some ("/" ++ r)⟩) = some ("https:/" ++ r) ∧
    (∀ baseUrl : String,
      Books.imageUrlOf baseUrl ⟨some ("/" ++ r)⟩ = baseUrl ++ "/" ++ r ∧
      Books.imageUrlOf baseUrl ⟨some ("//" ++ r)⟩ = baseUrl ++ "/" ++ r) := by
  refine ⟨?_, ?_, ?_⟩
  · show some ("https:" ++ ("//" ++ r)) = some ("https://" ++ r)
    rw [https_append_protocol]
  · show some ("https:" ++ ("/" ++ r)) = some ("https:/" ++ r)
    have : "https:" ++ ("/" ++ r) = "https:/" ++ r := by
      apply String.ext
      rw [String.data_append, String.data_append, String.data_append]
      rfl
    rw [this]
  · intro baseUrl
    constructor
    · show baseUrl ++ "/" ++ Books.lstripSlashes ("/" ++ r) = baseUrl ++ "/" ++ r
      rw [Books.lstripSlashes_one r h]
    · show baseUrl ++ "/" ++ Books.lstripSlashes ("//" ++ r) = baseUrl ++ "/" ++ r
      rw [Books.lstripSlashes_two r h]

/-- Witness for `image_url_resolution_amended` at the protocol-relative
src `//cdn.example.com/img.jpg` (as `"//" ++ "cdn.example.com/img.jpg"`). -/
theorem image_url_resolution_amended_witness :
    Scrap.Lama.imageUrlOf (some ⟨some ("//" ++ "cdn.example.com/img.jpg")⟩) =
      some ("https://" ++ "cdn.example.com/img.jpg") ∧
    Scrap.Lama.imageUrlOf (some ⟨some ("/" ++ "cdn.example.com/img.jpg")⟩) =
      some ("https:/" ++ "cdn.example.com/img.jpg") ∧
    (∀ baseUrl : String,
      Scrap.Books.imageUrlOf baseUrl ⟨some ("/" ++ "cdn.example.com/img.jpg")⟩ =
        baseUrl ++ "/" ++ "cdn.example.com/img.jpg" ∧
      Scrap.Books.imageUrlOf baseUrl ⟨some ("//" ++ "cdn.example.com/img.jpg")⟩ =
        baseUrl ++ "/" ++ "cdn.example.com/img.jpg") :=
  image_url_resolution_amended "cdn.example.com/img.jpg" (by decide)

namespace Scrap

theorem https_ne_empty (s : String) : "https:" ++ s ≠ "" := by
  intro h
  have hd : ("https:" ++ s).data = ("" : String).data := congrArg String.data h
  rw [String.data_append] at hd
  obtain ⟨h1, -⟩ := List.append_eq_nil.mp hd
  exact absurd h1 (by decide)

end Scrap

open Scrap in
/-- C7: an image download whose transport fails returns an empty/absent
path instead of raising: the Books variant returns `''` and the lama
variant `None`, the filesystem is untouched, the item's record is still
produced with that empty/absent image path, and the page loop continues
with the remaining items from the same state. -/
theorem transport_failure_keeps_record (md5hex : String → String)
    (net : ImgNet) (baseUrl cat : String) (fs : FS) (img : Books.ImgEl)
    (a : Books.AEl) (price : String) (classes : List String)
    (rating avail : String)
    (hr : classes.get? 1 = some rating)
    (hfail : net (Books.imageUrlOf baseUrl img) = none)
    (habs : fsHas fs
      (Books.imagePath md5hex (Books.imageUrlOf baseUrl img) cat) = false)
    (lnet : ImgNet) (folder : String) (lfs : FS) (c : Lama.Content)
    (s : String) (handle pid : Option String)
    (hlfail : lnet ("https:" ++ s) = none)
    (hlabs : fsHas lfs (folder ++ "/" ++
      Lama.filenameOf (handle.getD "") "primary" ("https:" ++ s)) = false) :
    (Books.processBook md5hex net baseUrl cat fs
      { img := some img, h3a := some a, priceColor := some price,
        starRating := some classes, instock := some avail } =
      (fs, [Books.imageUrlOf baseUrl img], some
        { title := a.title.getD "", price := pyStrip price, rating := rating,
          availability := pyStrip avail, image_path := "", category := cat })) ∧
    (∀ rest, (Books.processBooks md5hex net baseUrl cat fs
        ({ img := some img, h3a := some a, priceColor := some price,
           starRating := some classes, instock := some avail } :: rest)).2.2 =
      { title := a.title.getD "", price := pyStrip price, rating := rating,
        availability := pyStrip avail, image_path := "", category := cat } ::
        (Books.processBooks md5hex net baseUrl cat fs rest).2.2) ∧
    (Lama.processProduct lnet folder lfs
      { handle := handle, productId := pid, content := some c,
        primaryImg := some ⟨some s⟩, secondaryImg := none } =
      (lfs, ["https:" ++ s], some
        { name := match c.titleEl with
                  | some t => pyStrip t
                  | none => "Name not found",
          product_id := pid.getD "", handle := handle.getD "",
          regular_price := c.regularPriceEl.map pyStrip,
          sale_price := c.salePriceEl.map pyStrip,
          is_on_sale := c.salePriceEl.isSome,
          primary_image_url := some ("https:" ++ s),
          secondary_image_url := none,
          primary_image_path := none, secondary_image_path := none,
          link := if handle.getD "" = "" then none
                  else some ("https://lamaretail.com/products/" ++
                    handle.getD "") })) := by
  have hbook : Books.processBook md5hex net baseUrl cat fs
      { img := some img, h3a := some a, priceColor := some price,
        starRating := some classes, instock := some avail } =
      (fs, [Books.imageUrlOf baseUrl img], some
        { title := a.title.getD "", price := pyStrip price, rating := rating,
          availability := pyStrip avail, image_path := "",
          category := cat }) := by
    unfold Books.processBook
    simp only [Books.downloadImage, habs, Bool.false_eq_true, if_false,
      hfail, hr]
  refine ⟨hbook, ?_, ?_⟩
  · intro rest
    simp only [Books.processBooks, hbook]
  · simp [Lama.processProduct, Lama.downloadImage, Lama.imageUrlOf,
      https_ne_empty s, hlfail, hlabs]

/-- Witness for `transport_failure_keeps_record` at concrete inputs whose
image fetches fail. -/
theorem transport_failure_keeps_record_witness :
    (Scrap.Books.processBook (fun _ => "h") (fun _ => none)
      "https://books.toscrape.com" "Travel" []
      { img := some ⟨some "/a.png"⟩, h3a := some ⟨some "t"⟩,
        priceColor := some "p", starRating := some ["star-rating", "Three"],
        instock := some "y" } =
      ([], ["https://books.toscrape.com/a.png"], some
        { title := (some "t" : Option String).getD "",
          price := Scrap.pyStrip "p", rating := "Three",
          availability := Scrap.pyStrip "y", image_path := "",
          category := "Travel" })) ∧
    (∀ rest, (Scrap.Books.processBooks (fun _ => "h") (fun _ => none)
        "https://books.toscrape.com" "Travel" []
        ({ img := some ⟨some "/a.png"⟩, h3a := some ⟨some "t"⟩,
           priceColor := some "p", starRating := some ["star-rating", "Three"],
           instock := some "y" } :: rest)).2.2 =
      { title := (some "t" : Option String).getD "",
        price := Scrap.pyStrip "p", rating := "Three",
        availability := Scrap.pyStrip "y", image_path := "",
        category := "Travel" } ::
        (Scrap.Books.processBooks (fun _ => "h") (fun _ => none)
          "https://books.toscrape.com" "Travel" [] rest).2.2) ∧
    (Scrap.Lama.processProduct (fun _ => none) "images" []
      { handle := some "coat", productId := some "1",
        content := some Scrap.Lama.sampleContent,
        primaryImg := some ⟨some "//cdn.example.com/i.png"⟩,
        secondaryImg := none } =
      ([], ["https:" ++ "//cdn.example.com/i.png"], some
        { name := match Scrap.Lama.sampleContent.titleEl with
                  | some t => Scrap.pyStrip t
                  | none => "Name not found",
          product_id := (some "1" : Option String).getD "",
          handle := (some "coat" : Option String).getD "",
          regular_price := Scrap.Lama.sampleContent.regularPriceEl.map Scrap.pyStrip,
          sale_price := Scrap.Lama.sampleContent.salePriceEl.map Scrap.pyStrip,
          is_on_sale := Scrap.Lama.sampleContent.salePriceEl.isSome,
          primary_image_url := some ("https:" ++ "//cdn.example.com/i.png"),
          secondary_image_url := none,
          primary_image_path := none, secondary_image_path := none,
          link := if (some "coat" : Option String).getD "" = "" then none
                  else some ("https://lamaretail.com/products/" ++
                    (some "coat" : Option String).getD "") })) :=
  transport_failure_keeps_record (fun _ => "h") (fun _ => none)
    "https://books.toscrape.com" "Travel" [] ⟨some "/a.png"⟩ ⟨some "t"⟩
    "p" ["star-rating", "Three"] "Three" "y" (by decide) rfl (by decide)
    (fun _ => none) "images" [] Scrap.Lama.sampleContent
    "//cdn.example.com/i.png" (some "coat") (some "1") rfl (by decide)

namespace Scrap

theorem takeWhile_all {α : Type} (p : α → Bool) :
    ∀ (l : List α), (∀ c ∈ l, p c = true) → l.takeWhile p = l := by
  intro l
  induction l with
  | nil => intro _; rfl
  | cons a t ih =>
    intro h
    rw [List.takeWhile_cons, if_pos (h a (List.mem_cons_self a t))]
    rw [ih (fun c hc => h c (List.mem_cons_of_mem a hc))]

theorem Lama.basenameChars_no_slash (l : List Char)
    (h : ∀ ch ∈ l, ch ≠ '/') :
    Lama.basenameChars (String.mk l) = l := by
  unfold Lama.basenameChars
  show (l.reverse.takeWhile _).reverse = l
  rw [takeWhile_all _ l.reverse
    (fun c hc => by simp [h c (List.mem_reverse.mp hc)])]
  exact List.reverse_reverse l

theorem Lama.splitextExt_digest_jpg (m : List Char)
    (hslash : ∀ ch ∈ m, ch ≠ '/') (hdot : m.any (fun ch => ch ≠ '.') = true) :
    Lama.splitextExt (String.mk (m ++ ['.', 'j', 'p', 'g'])) = ".jpg" := by
  have hb : Lama.basenameChars (String.mk (m ++ ['.', 'j', 'p', 'g'])) =
      m ++ ['.', 'j', 'p', 'g'] := by
    apply Lama.basenameChars_no_slash
    intro ch hch
    rcases List.mem_append.mp hch with h1 | h2
    · exact hslash ch h1
    · have : ch = '.' ∨ ch = 'j' ∨ ch = 'p' ∨ ch = 'g' := by simpa using h2
      rcases this with rfl | rfl | rfl | rfl <;> decide
  simp only [Lama.splitextExt, hb, List.reverse_append]
  have hrev : (['.', 'j', 'p', 'g'] : List Char).reverse = ['g', 'p', 'j', '.'] := rfl
  rw [hrev]
  have htake : (['g', 'p', 'j', '.'] ++ m.reverse).takeWhile
      (fun c => c ≠ '.') = ['g', 'p', 'j'] := by
    simp [List.takeWhile_cons]
  rw [htake]
  rw [if_neg (by simp [List.length_append])]
  have hdrop : (['g', 'p', 'j', '.'] ++ m.reverse).drop
      ((['g', 'p', 'j'] : List Char).length + 1) = m.reverse :=
    List.drop_left (['g', 'p', 'j', '.'] : List Char) m.reverse
  rw [hdrop, List.reverse_reverse]
  rw [if_pos hdot]
  rfl

end Scrap

open Scrap in
/-- Counterexample to C8: for the source URL
`https://x.example/covers/a.png`, whose path has the parseable extension
`.png`, the Books variant derives the local filename
`md5hex(url) + '.jpg'` — its extension (Python `splitext` semantics) is
`.jpg`, not the URL's `.png`.  The md5 digest is instantiated with a
concrete hex-digest-shaped stand-in. -/
theorem books_extension_always_jpg_cex :
    Lama.splitextExt (Lama.urlPath "https://x.example/covers/a.png") =
      ".png" ∧
    Lama.splitextExt
      ((fun _ => "0123456789abcdef0123456789abcdef" : String → String)
        "https://x.example/covers/a.png" ++ ".jpg") = ".jpg" ∧
    Books.imagePath (fun _ => "0123456789abcdef0123456789abcdef")
      "https://x.example/covers/a.png" "Travel" =
      "images/Travel/0123456789abcdef0123456789abcdef.jpg" ∧
    (".jpg" : String) ≠ ".png" := by
  refine ⟨by decide, by decide, by decide, by decide⟩

open Scrap in
/-- C8 as amended: the lama variant derives the extension of the local
filename from the URL path's extension (Python `splitext` semantics),
defaulting to `.jpg` exactly when that extension is empty, and a fresh
successful download returns `folder/handle_role + ext` with that
extension; the Books variant's filename is `md5hex(url) + '.jpg'`, whose
extension is always `.jpg` whatever the URL's extension. -/
theorem extension_resolution_amended (url : String) (net : ImgNet) (fs : FS)
    (u folder handle role body : String)
    (hu : u ≠ "")
    (habs : fsHas fs (folder ++ "/" ++ Lama.filenameOf handle role u) = false)
    (hnet : net u = some body)
    (md5hex : String → String) (url2 : String)
    (hslash : ∀ ch ∈ (md5hex url2).data, ch ≠ '/')
    (hdot : (md5hex url2).data.any (fun ch => ch ≠ '.') = true) :
    (Lama.splitextExt (Lama.urlPath url) ≠ "" →
      Lama.extOf url = Lama.splitextExt (Lama.urlPath url)) ∧
    (Lama.splitextExt (Lama.urlPath url) = "" → Lama.extOf url = ".jpg") ∧
    (Lama.downloadImage net fs (some u) folder handle role).1 =
      some (folder ++ "/" ++ (handle ++ "_" ++ role ++ Lama.extOf u)) ∧
    Lama.splitextExt (md5hex url2 ++ ".jpg") = ".jpg" := by
  refine ⟨?_, ?_, ?_, ?_⟩
  · intro h
    simp only [Lama.extOf]
    rw [if_neg h]
  · intro h
    simp only [Lama.extOf]
    rw [if_pos h]
  · show (Lama.downloadImage net fs (some u) folder handle role).1 =
      some (folder ++ "/" ++ Lama.filenameOf handle role u)
    simp [Lama.downloadImage, hu, habs, hnet]
  · exact Lama.splitextExt_digest_jpg (md5hex url2).data hslash hdot

/-- Witness for `extension_resolution_amended` at a concrete `.png` URL and
a concrete hex digest. -/
theorem extension_resolution_amended_witness :
    (Scrap.Lama.splitextExt
        (Scrap.Lama.urlPath "https://x.example/covers/a.png") ≠ "" →
      Scrap.Lama.extOf "https://x.example/covers/a.png" =
        Scrap.Lama.splitextExt
          (Scrap.Lama.urlPath "https://x.example/covers/a.png")) ∧
    (Scrap.Lama.splitextExt
        (Scrap.Lama.urlPath "https://x.example/covers/a.png") = "" →
      Scrap.Lama.extOf "https://x.example/covers/a.png" = ".jpg") ∧
    (Scrap.Lama.downloadImage (fun _ => some "B") []
      (some "https://x.example/covers/a.png") "images" "coat" "primary").1 =
      some ("images" ++ "/" ++ ("coat" ++ "_" ++ "primary" ++
        Scrap.Lama.extOf "https://x.example/covers/a.png")) ∧
    Scrap.Lama.splitextExt
      ((fun _ => "0123456789abcdef0123456789abcdef" : String → String)
        "u" ++ ".jpg") = ".jpg" :=
  extension_resolution_amended "https://x.example/covers/a.png"
    (fun _ => some "B") [] "https://x.example/covers/a.png" "images" "coat"
    "primary" "B" (by decide) (by decide) rfl
    (fun _ => "0123456789abcdef0123456789abcdef") "u" (by decide) (by decide)
